import Mathlib

/-!
Verification of the pure computations of the Thaw protocol client library:
share-based exchange-rate accounting (`calculateThcsprFromCspr`,
`calculateCsprFromThcspr`), the derived lending-position projections
(health factor, max borrow, utilization rate), the leverage exposure
projection, and the guard clauses of the leverage-stake deploy builder.
Machine integers of the source (TypeScript `bigint` holding on-chain
unsigned values) are embedded as `Nat`, with `Int` where a subtraction
can go negative; the source's integer division on non-negative operands
agrees with `Nat` division.
-/

namespace Thaw

/-- Fixed-point scale of the exchange rate: `EXCHANGE_RATE_PRECISION = 1e18`
in the source. -/
def EXCHANGE_RATE_PRECISION : ℕ := 10 ^ 18

/-- Embeds `calculateThcsprFromCspr` (shares minted for a stake): returns
`csprAmount` when `totalSupply` or `totalPooled` is zero, else
`csprAmount * totalSupply / totalPooled` with integer division. -/
def calculateThcsprFromCspr (csprAmount totalPooled totalSupply : ℕ) : ℕ :=
  if totalSupply = 0 ∨ totalPooled = 0 then csprAmount
  else csprAmount * totalSupply / totalPooled

/-- Embeds `calculateCsprFromThcspr` (principal due for burned shares):
returns 0 when `totalSupply` is zero, else
`thcsprAmount * totalPooled / totalSupply` with integer division. -/
def calculateCsprFromThcspr (thcsprAmount totalPooled totalSupply : ℕ) : ℕ :=
  if totalSupply = 0 then 0
  else thcsprAmount * totalPooled / totalSupply

/-- Modelled from the spec: shares-to-mint is `amount` when
`total_shares == 0`, else `amount * total_shares / total_pooled`.
Stated only to compare the spec formula against the source function. -/
def specSharesToMint (amount totalPooled totalShares : ℕ) : ℕ :=
  if totalShares = 0 then amount
  else amount * totalShares / totalPooled

/-- Embeds the derived health-factor computation of `getUserPosition`:
`EXCHANGE_RATE_PRECISION * 10` when there is no debt, else
`((collateral * 80 / 100) * EXCHANGE_RATE_PRECISION) / borrowed`. -/
def userPositionHealthFactor (collateral borrowed : ℕ) : ℕ :=
  if 0 < borrowed then collateral * 80 / 100 * EXCHANGE_RATE_PRECISION / borrowed
  else EXCHANGE_RATE_PRECISION * 10

/-- Modelled from the spec: `health_factor =
(collateral_shares * R * liquidation_threshold_bps) / (debt * 10000)` at
1e18 fixed-point scale, with `liquidation_threshold_bps = 8000` and `R`
the 1e18-scaled exchange rate. Stated only to compare the spec formula
against the source computation. -/
def specHealthFactor (collateralShares R debt : ℕ) : ℕ :=
  collateralShares * R * 8000 / (debt * 10000)

/-- Embeds the derived max-borrow computation of `getUserPosition`:
`collateral * 75 / 100 - borrowed` as a signed value, clamped to 0. -/
def userPositionMaxBorrow (collateral borrowed : ℕ) : ℤ :=
  if 0 < ((collateral * 75 / 100 : ℕ) : ℤ) - (borrowed : ℤ) then
    ((collateral * 75 / 100 : ℕ) : ℤ) - (borrowed : ℤ)
  else 0

/-- Modelled from the spec: `max_borrow =
max(0, collateral_shares * R * collateral_factor_bps / 10000 - debt)` with
`collateral_factor_bps = 7500` and `R` the 1e18-scaled exchange rate.
Stated only to compare the spec formula against the source computation. -/
def specMaxBorrow (collateralShares R debt : ℕ) : ℤ :=
  max 0 (((collateralShares * R * 7500 / 10000 / EXCHANGE_RATE_PRECISION : ℕ) : ℤ)
    - (debt : ℤ))

/-- Embeds the utilization-rate computation of `getLendingPoolStats`:
`total_borrowed * 100 / total_deposits` with integer division when
deposits are positive, else 0. -/
def utilizationRate (totalDeposits totalBorrowed : ℕ) : ℕ :=
  if 0 < totalDeposits then totalBorrowed * 100 / totalDeposits else 0

/-- Modelled from the spec: `utilization_rate = total_borrowed /
total_deposits` (0 when deposits are 0), read as exact division. Stated
only to compare the spec formula against the source computation. -/
def specUtilizationRate (totalDeposits totalBorrowed : ℕ) : ℚ :=
  if totalDeposits = 0 then 0 else (totalBorrowed : ℚ) / (totalDeposits : ℚ)

/-- Loop body of `calculateExposure`: each iteration multiplies the
current tranche by the factor and adds the product to the running total. -/
def exposureAux (factor current total : ℚ) : ℕ → ℚ
  | 0 => total
  | n + 1 => exposureAux factor (current * factor) (total + current * factor) n

/-- Embeds `calculateExposure` of the leverage page: starting from
`initialAmount`, the loop runs for indices 1 up to `loopCount - 1` with
factor `collateralFactor / 100`. Every value arising at the inputs of the
claims is exactly representable in binary floating point, so the rational
semantics coincides there with the source's number semantics. -/
def calculateExposure (collateralFactor initialAmount : ℚ) (loopCount : ℕ) : ℚ :=
  exposureAux (collateralFactor / 100) initialAmount initialAmount (loopCount - 1)

/-- The two throw causes of the guard clauses of `buildLeverageStakeDeploy`. -/
inductive LeverageStakeCheckError where
  | hashNotConfigured
  | loopsOutOfRange

/-- In the source `LENDING_POOL_HASH` is the empty string, so the
configured flag is currently false. -/
def lendingPoolHashConfigured : Bool := false

/-- Embeds the guard clauses of `buildLeverageStakeDeploy`: first the
configured-hash check, then the loops-range check, which throws unless
`1 ≤ loops ≤ 4`. The deploy construction after the guards is SDK
plumbing and is not modelled. -/
def leverageStakeChecks (hashConfigured : Bool) (loops : ℤ) :
    Except LeverageStakeCheckError Unit :=
  if ¬ hashConfigured then Except.error LeverageStakeCheckError.hashNotConfigured
  else if loops < 1 ∨ 4 < loops then Except.error LeverageStakeCheckError.loopsOutOfRange
  else Except.ok ()

/-- Claim C9: valuing any share amount against a pool with zero total
shares returns 0 — the division by `total_shares` is guarded and the
function is total, so unstake valuation against an empty pool yields 0
rather than an error. -/
theorem calculateCsprFromThcspr_zero_supply (thcsprAmount totalPooled : ℕ) :
    calculateCsprFromThcspr thcsprAmount totalPooled 0 = 0 := by
  simp [calculateCsprFromThcspr]

/-- Claim C10: with zero debt (any collateral, including the all-zero
position) the derived health factor is exactly `10 * 1e18`. -/
theorem userPositionHealthFactor_no_debt (collateral : ℕ) :
    userPositionHealthFactor collateral 0 = 10 * EXCHANGE_RATE_PRECISION := by
  simp [userPositionHealthFactor, Nat.mul_comm]

/-- Claim C2: for `total_shares > 0` the principal due is exactly
`shares * total_pooled / total_shares`, and this is the floor of the
exact quotient: the unique q with
`q * total_shares ≤ shares * total_pooled < (q + 1) * total_shares`. -/
theorem calculateCsprFromThcspr_div (thcsprAmount totalPooled totalSupply : ℕ)
    (hS : 0 < totalSupply) :
    calculateCsprFromThcspr thcsprAmount totalPooled totalSupply
      = thcsprAmount * totalPooled / totalSupply ∧
    calculateCsprFromThcspr thcsprAmount totalPooled totalSupply * totalSupply
      ≤ thcsprAmount * totalPooled ∧
    thcsprAmount * totalPooled
      < (calculateCsprFromThcspr thcsprAmount totalPooled totalSupply + 1)
          * totalSupply := by
  have hne : totalSupply ≠ 0 := Nat.pos_iff_ne_zero.mp hS
  unfold calculateCsprFromThcspr
  rw [if_neg hne]
  refine ⟨rfl, Nat.div_mul_le_self _ _, ?_⟩
  exact (Nat.div_lt_iff_lt_mul hS).mp (Nat.lt_succ_self _)

/-- Witness for C2 at shares 7, pooled 10, supply 4. -/
theorem calculateCsprFromThcspr_div_witness :
    calculateCsprFromThcspr 7 10 4 = 7 * 10 / 4 ∧
    calculateCsprFromThcspr 7 10 4 * 4 ≤ 7 * 10 ∧
    7 * 10 < (calculateCsprFromThcspr 7 10 4 + 1) * 4 :=
  calculateCsprFromThcspr_div 7 10 4 (by decide)

/-- Counterexample for C1: with `total_pooled = 0` and `total_shares = 3`
the source returns the amount (here 5), not
`amount * total_shares / total_pooled` as the claim states for every
state with positive total shares. -/
theorem calculateThcsprFromCspr_counterexample :
    calculateThcsprFromCspr 5 0 3 ≠ specSharesToMint 5 0 3 := by decide

/-- Claim C1 (amended): the shares-to-mint computation returns the raw
amount when `total_shares = 0` or `total_pooled = 0`; when both are
positive it is exactly `amount * total_shares / total_pooled`, the floor
of the exact quotient. -/
theorem calculateThcsprFromCspr_spec (amount totalPooled totalSupply : ℕ) :
    ((totalSupply = 0 ∨ totalPooled = 0) →
      calculateThcsprFromCspr amount totalPooled totalSupply = amount) ∧
    (0 < totalSupply → 0 < totalPooled →
      calculateThcsprFromCspr amount totalPooled totalSupply
        = amount * totalSupply / totalPooled ∧
      calculateThcsprFromCspr amount totalPooled totalSupply * totalPooled
        ≤ amount * totalSupply ∧
      amount * totalSupply
        < (calculateThcsprFromCspr amount totalPooled totalSupply + 1)
            * totalPooled) := by
  constructor
  · intro h
    unfold calculateThcsprFromCspr
    rw [if_pos h]
  · intro hS hP
    have hcond : ¬ (totalSupply = 0 ∨ totalPooled = 0) := by omega
    unfold calculateThcsprFromCspr
    rw [if_neg hcond]
    refine ⟨rfl, Nat.div_mul_le_self _ _, ?_⟩
    exact (Nat.div_lt_iff_lt_mul hP).mp (Nat.lt_succ_self _)

/-- Witness for the amended C1 at amount 7, pooled 3, supply 5. -/
theorem calculateThcsprFromCspr_spec_witness :
    calculateThcsprFromCspr 7 3 5 = 7 * 5 / 3 ∧
    calculateThcsprFromCspr 7 3 5 * 3 ≤ 7 * 5 ∧
    7 * 5 < (calculateThcsprFromCspr 7 3 5 + 1) * 3 :=
  (calculateThcsprFromCspr_spec 7 3 5).2 (by decide) (by decide)

/-- Claim C3: round trip. Under the pool invariant
(`total_shares = 0 → total_pooled = 0`), staking `A` into pool `(P, S)`,
updating the pool to `(P + A, S + minted)` and immediately valuing the
minted shares returns at most `A`, with equality exactly when
`total_pooled` divides `A * total_shares` — i.e. when `A` divides evenly
by the current exchange rate `P / S`. -/
theorem roundTrip (A P S : ℕ) (hinv : S = 0 → P = 0) :
    calculateCsprFromThcspr (calculateThcsprFromCspr A P S) (P + A)
        (S + calculateThcsprFromCspr A P S) ≤ A ∧
    (P ∣ A * S →
      calculateCsprFromThcspr (calculateThcsprFromCspr A P S) (P + A)
        (S + calculateThcsprFromCspr A P S) = A) := by
  rcases Nat.eq_zero_or_pos S with hS | hS
  · -- empty pool: the invariant forces P = 0 and the mint is 1:1
    have hP : P = 0 := hinv hS
    subst hS; subst hP
    have hm : calculateThcsprFromCspr A 0 0 = A := by
      unfold calculateThcsprFromCspr
      rw [if_pos (Or.inl rfl)]
    rw [hm]
    rcases Nat.eq_zero_or_pos A with hA | hA
    · subst hA
      simp [calculateCsprFromThcspr]
    · have hval : calculateCsprFromThcspr A (0 + A) (0 + A) = A := by
        unfold calculateCsprFromThcspr
        rw [if_neg (by omega)]
        rw [Nat.zero_add, Nat.mul_div_cancel_left A hA]
      rw [hval]
      exact ⟨le_refl A, fun _ => rfl⟩
  · rcases Nat.eq_zero_or_pos P with hP | hP
    · -- zero backing with live shares: mint is 1:1, valuation only shrinks
      subst hP
      have hm : calculateThcsprFromCspr A 0 S = A := by
        unfold calculateThcsprFromCspr
        rw [if_pos (Or.inr rfl)]
      rw [hm]
      have hval : calculateCsprFromThcspr A (0 + A) (S + A)
          = A * A / (S + A) := by
        unfold calculateCsprFromThcspr
        rw [if_neg (by omega), Nat.zero_add]
      constructor
      · rw [hval]
        calc A * A / (S + A) ≤ A * (S + A) / (S + A) :=
              Nat.div_le_div_right (Nat.mul_le_mul_left A (by omega))
          _ = A := Nat.mul_div_cancel A (by omega)
      · intro hdvd
        have hA : A = 0 := by
          rcases (Nat.zero_dvd).mp hdvd with h0
          exact (Nat.mul_eq_zero.mp h0).resolve_right (by omega)
        subst hA
        rw [hval]
        simp
    · -- generic pool: the minted shares are the floored quotient
      have hm : calculateThcsprFromCspr A P S = A * S / P := by
        unfold calculateThcsprFromCspr
        rw [if_neg (by omega)]
      rw [hm]
      have hSm : 0 < S + A * S / P := by omega
      have hval : calculateCsprFromThcspr (A * S / P) (P + A) (S + A * S / P)
          = A * S / P * (P + A) / (S + A * S / P) := by
        unfold calculateCsprFromThcspr
        rw [if_neg (by omega)]
      rw [hval]
      have hmP : A * S / P * P ≤ A * S := Nat.div_mul_le_self _ _
      constructor
      · have key : A * S / P * (P + A) ≤ A * (S + A * S / P) := by
          rw [Nat.mul_add, Nat.mul_add]
          have hc : A * S / P * A = A * (A * S / P) := Nat.mul_comm _ _
          linarith
        calc A * S / P * (P + A) / (S + A * S / P)
            ≤ A * (S + A * S / P) / (S + A * S / P) := Nat.div_le_div_right key
          _ = A := Nat.mul_div_cancel A hSm
      · intro hdvd
        have hmPeq : A * S / P * P = A * S := Nat.div_mul_cancel hdvd
        have key : A * S / P * (P + A) = A * (S + A * S / P) := by
          rw [Nat.mul_add, Nat.mul_add, hmPeq, Nat.mul_comm (A * S / P) A]
        rw [key, Nat.mul_div_cancel A hSm]

/-- Witness for C3 at amount 3, pooled 2, shares 4: minted = 6, and
unstaking 6 shares from the pool (5, 10) returns exactly 3. -/
theorem roundTrip_witness :
    calculateCsprFromThcspr (calculateThcsprFromCspr 3 2 4) (2 + 3)
        (4 + calculateThcsprFromCspr 3 2 4) ≤ 3 ∧
    calculateCsprFromThcspr (calculateThcsprFromCspr 3 2 4) (2 + 3)
        (4 + calculateThcsprFromCspr 3 2 4) = 3 :=
  ⟨(roundTrip 3 2 4 (by decide)).1, (roundTrip 3 2 4 (by decide)).2 (by decide)⟩

/-- Counterexample for C4: at collateral 1, debt 1 and exchange rate
1e18 (rate 1.0) the source computes 0 while the spec formula gives
8e17 — the source never applies the exchange rate and floors the 80%
factor before scaling. -/
theorem userPositionHealthFactor_counterexample :
    userPositionHealthFactor 1 1 ≠ specHealthFactor 1 EXCHANGE_RATE_PRECISION 1 := by
  decide

/-- Claim C4 (amended): for debt > 0 the derived health factor is
`((collateral * 80 / 100) * 1e18) / debt` — the exchange rate is never
applied (collateral shares are valued at parity) and the 80% threshold is
floored before scaling; when 5 divides the collateral this coincides with
the spec formula evaluated at exchange rate 1e18. -/
theorem userPositionHealthFactor_debt (collateral debt : ℕ) (hd : 0 < debt) :
    userPositionHealthFactor collateral debt
      = collateral * 80 / 100 * EXCHANGE_RATE_PRECISION / debt ∧
    (5 ∣ collateral →
      userPositionHealthFactor collateral debt
        = specHealthFactor collateral EXCHANGE_RATE_PRECISION debt) := by
  have hcode : userPositionHealthFactor collateral debt
      = collateral * 80 / 100 * EXCHANGE_RATE_PRECISION / debt := by
    unfold userPositionHealthFactor
    rw [if_pos hd]
  refine ⟨hcode, ?_⟩
  rintro ⟨k, rfl⟩
  have h1 : 5 * k * 80 / 100 = 4 * k := by omega
  have h2 : specHealthFactor (5 * k) EXCHANGE_RATE_PRECISION debt
      = 4 * k * EXCHANGE_RATE_PRECISION / debt := by
    unfold specHealthFactor EXCHANGE_RATE_PRECISION
    rw [show 5 * k * 10 ^ 18 * 8000 = 4 * k * 10 ^ 18 * 10000 by ring]
    exact Nat.mul_div_mul_right _ _ (by norm_num)
  rw [hcode, h1, h2]

/-- Witness for the amended C4 at collateral 10, debt 4. -/
theorem userPositionHealthFactor_debt_witness :
    userPositionHealthFactor 10 4
      = 10 * 80 / 100 * EXCHANGE_RATE_PRECISION / 4 ∧
    userPositionHealthFactor 10 4
      = specHealthFactor 10 EXCHANGE_RATE_PRECISION 4 :=
  ⟨(userPositionHealthFactor_debt 10 4 (by decide)).1,
    (userPositionHealthFactor_debt 10 4 (by decide)).2 (by decide)⟩

/-- Counterexample for C5: at collateral 100, debt 0 and exchange rate
2e18 (rate 2.0) the source computes 75 while the spec formula gives
150 — the source never applies the exchange rate. -/
theorem userPositionMaxBorrow_counterexample :
    userPositionMaxBorrow 100 0 ≠ specMaxBorrow 100 (2 * EXCHANGE_RATE_PRECISION) 0 := by
  decide

/-- Claim C5 (amended): the derived max borrow equals the spec formula
`max(0, collateral * R * 7500 / 10000 - debt)` with the exchange rate `R`
fixed at 1e18 (rate 1.0) — i.e. `max(0, collateral * 75 / 100 - debt)`
with collateral shares valued at parity — and is never negative. -/
theorem userPositionMaxBorrow_spec (collateral debt : ℕ) :
    userPositionMaxBorrow collateral debt
      = specMaxBorrow collateral EXCHANGE_RATE_PRECISION debt ∧
    0 ≤ userPositionMaxBorrow collateral debt := by
  have h1 : collateral * EXCHANGE_RATE_PRECISION * 7500 / 10000 / EXCHANGE_RATE_PRECISION
      = collateral * 75 / 100 := by
    unfold EXCHANGE_RATE_PRECISION
    rw [show collateral * 10 ^ 18 * 7500 = collateral * 75 * 10 ^ 16 * 10000 by ring]
    rw [Nat.mul_div_cancel _ (by norm_num : (0:ℕ) < 10000)]
    rw [show (10:ℕ) ^ 18 = 100 * 10 ^ 16 by norm_num]
    rw [show collateral * 75 * 10 ^ 16 = 10 ^ 16 * (collateral * 75) by ring,
      show (100:ℕ) * 10 ^ 16 = 10 ^ 16 * 100 by ring]
    exact Nat.mul_div_mul_left _ _ (by norm_num)
  unfold userPositionMaxBorrow specMaxBorrow
  rw [h1]
  constructor
  · split_ifs with h
    · exact (max_eq_right h.le).symm
    · exact (max_eq_left (by omega)).symm
  · split_ifs with h
    · exact h.le
    · exact le_refl 0

/-- Counterexample for C6: with the default collateral factor 75,
initial amount 100 and loops = 3, the source does not floor the per-loop
borrow amounts and the total exposure is 231.25, not 231. -/
theorem calculateExposure_counterexample :
    calculateExposure 75 100 3 ≠ 231 := by
  norm_num [calculateExposure, exposureAux]

/-- Claim C6 (amended): with collateral factor 75, initial amount 100 and
loops = 3 the exposure sequence is 100, +75, +56.25 (the borrow amounts
are not floored): after the first loop the running total is 175, the
total exposure is 231.25 = 925/4, and the effective leverage is exactly
2.3125 = 37/16. -/
theorem calculateExposure_spec :
    calculateExposure 75 100 2 = 175 ∧
    calculateExposure 75 100 3 = 925 / 4 ∧
    calculateExposure 75 100 3 / 100 = 37 / 16 := by
  refine ⟨?_, ?_, ?_⟩ <;> norm_num [calculateExposure, exposureAux]

/-- Claim C7: with a configured lending-pool hash, the leverage-stake
deploy builder throws the loops-range error for every loops < 1 or
loops > 4 (`max_leverage_loops = 4` is the hard-coded bound), and for
every loops in 1..4 the guards pass. -/
theorem leverageStakeChecks_range (loops : ℤ) :
    ((loops < 1 ∨ 4 < loops) →
      leverageStakeChecks true loops
        = Except.error LeverageStakeCheckError.loopsOutOfRange) ∧
    (1 ≤ loops → loops ≤ 4 → leverageStakeChecks true loops = Except.ok ()) := by
  constructor
  · intro h
    unfold leverageStakeChecks
    rw [if_neg (by simp), if_pos h]
  · intro h1 h2
    unfold leverageStakeChecks
    rw [if_neg (by simp), if_neg (by omega)]

/-- Witness for C7: loops = 3 passes the guards, loops = 5 throws the
range error. -/
theorem leverageStakeChecks_range_witness :
    leverageStakeChecks true 3 = Except.ok () ∧
    leverageStakeChecks true 5
      = Except.error LeverageStakeCheckError.loopsOutOfRange :=
  ⟨(leverageStakeChecks_range 3).2 (by norm_num) (by norm_num),
    (leverageStakeChecks_range 5).1 (Or.inr (by norm_num))⟩

/-- Counterexample for C8: with deposits 200 and borrowed 100 the source
computes 50 — a floored whole-number percentage — while
`total_borrowed / total_deposits` is 1/2. -/
theorem utilizationRate_counterexample :
    (utilizationRate 200 100 : ℚ) ≠ specUtilizationRate 200 100 := by
  norm_num [utilizationRate, specUtilizationRate]

/-- Claim C8 (amended): the derived utilization rate is the floored
whole-number percentage `total_borrowed * 100 / total_deposits` — 100
times the spec ratio, rounded down — and 0 when deposits are 0. -/
theorem utilizationRate_spec (totalDeposits totalBorrowed : ℕ) :
    (totalDeposits = 0 → utilizationRate totalDeposits totalBorrowed = 0) ∧
    (0 < totalDeposits →
      utilizationRate totalDeposits totalBorrowed
        = Nat.floor ((100 : ℚ) * specUtilizationRate totalDeposits totalBorrowed)) := by
  constructor
  · intro h
    simp [utilizationRate, h]
  · intro h
    have hne : totalDeposits ≠ 0 := by omega
    unfold utilizationRate specUtilizationRate
    rw [if_pos h, if_neg hne]
    have hcast : (100 : ℚ) * ((totalBorrowed : ℚ) / (totalDeposits : ℚ))
        = ((totalBorrowed * 100 : ℕ) : ℚ) / ((totalDeposits : ℕ) : ℚ) := by
      push_cast
      ring
    rw [hcast, Nat.floor_div_eq_div]

/-- Witness for the amended C8 at deposits 200, borrowed 100. -/
theorem utilizationRate_spec_witness :
    utilizationRate 200 100
      = Nat.floor ((100 : ℚ) * specUtilizationRate 200 100) :=
  (utilizationRate_spec 200 100).2 (by decide)

end Thaw
